import Mathlib

/-!
Verification of the service-composition and environment-resolution core of
`Issues_FS__Service_UI__Fast_API` (file
`src/issues_fs_service_ui/fast_api/Issues_FS__Service_UI__Fast_API.py`) and
the console configuration constants (`src/issues_fs_service_ui/config.py`).

The process environment is modelled as a partial map from variable names to
string values (`none` = unset).  The mutable fields of the application object
that this core reads or writes are collected in `Issues_FS_State`.
`setup_services` is embedded as a pure function that returns the final field
values, the constructed artifacts, the ordered trace of initialization side
effects, and an optional propagated error from `set_current_root` (the Python
code wraps none of these calls in try/except, so an exception raised by
`set_current_root` aborts `setup_services`).
-/

namespace IssuesFS

/-- A process environment: variable name to optional value. -/
def Env : Type := String → Option String

/-- `get_env(name, None)` from osbot_utils: `os.environ.get(name, None)`. -/
def get_env (env : Env) (name : String) : Option String := env name

/-- Python `str.lower` on a single character, for the ASCII range the
configuration tokens live in. -/
def py_char_lower (c : Char) : Char :=
  if 'A' ≤ c ∧ c ≤ 'Z' then Char.ofNat (c.toNat + 32) else c

/-- Python `str.lower` (`env_value.lower()` in `resolve_storage_mode`). -/
def py_lower (s : String) : String := String.mk (s.data.map py_char_lower)

/-- Python truthiness of an optional string: `None` and `""` are falsy. -/
def py_truthy_str (o : Option String) : Bool :=
  match o with
  | none   => false
  | some v => v != ""

def DEFAULT__ISSUES_PATH : String := ".issues"
def ENV_VAR__ISSUES__IN_MEMORY : String := "ISSUES__IN_MEMORY"
def ENV_VAR__ISSUES__PATH : String := "ISSUES__PATH"
def ENV_VAR__ISSUES__ROOT_PATH : String := "ISSUES__ROOT_PATH"

/-- The instance fields of `Issues_FS__Service_UI__Fast_API` that the
configuration-resolution and service-setup code reads or writes. -/
structure Issues_FS_State where
  run_in_memory : Bool
  issues_path   : String
  root_path     : String
deriving Repr, DecidableEq

/-- The class-level field defaults:
`run_in_memory = True`, `issues_path = DEFAULT__ISSUES_PATH`, `root_path = ''`. -/
def default_state : Issues_FS_State :=
  { run_in_memory := true
  , issues_path   := DEFAULT__ISSUES_PATH
  , root_path     := "" }

/-- `resolve_storage_mode`: read `ISSUES__IN_MEMORY`; if it is set (even to
the empty string) return the negation of membership of its lowercase form in
`('false', '0', 'no', 'off')`; if unset return `self.run_in_memory`. -/
def resolve_storage_mode (env : Env) (s : Issues_FS_State) : Bool :=
  match get_env env ENV_VAR__ISSUES__IN_MEMORY with
  | some env_value => !(["false", "0", "no", "off"].contains (py_lower env_value))
  | none           => s.run_in_memory

/-- `resolve_issues_path`: read `ISSUES__PATH`; if truthy (set and non-empty)
return it, else return `str(self.issues_path)`. -/
def resolve_issues_path (env : Env) (s : Issues_FS_State) : String :=
  let env_value := get_env env ENV_VAR__ISSUES__PATH
  if py_truthy_str env_value then
    env_value.getD ""
  else
    s.issues_path

/-- `resolve_root_path`: read `ISSUES__ROOT_PATH`; if truthy return it; else
if `self.root_path` is truthy return it; else return `''`. -/
def resolve_root_path (env : Env) (s : Issues_FS_State) : String :=
  let env_value := get_env env ENV_VAR__ISSUES__ROOT_PATH
  if py_truthy_str env_value then
    env_value.getD ""
  else if s.root_path != "" then
    s.root_path
  else
    ""

/-- The two storage backends `setup_services` can construct:
`Storage_FS__Memory()` or `Storage_FS__Local_Disk(root_path=issues_path)`. -/
inductive Storage_FS where
  | memory : Storage_FS
  | local_disk (root_path : String) : Storage_FS
deriving Repr, DecidableEq

/-- `Path__Handler__Graph_Node(base_path=...)`: the shared path handler,
parameterized by its base path. -/
structure Path__Handler__Graph_Node where
  base_path : String
deriving Repr, DecidableEq

/-- Observable events of `setup_services`, in program order: the disk-branch
flag write, the storage-backend construction, the path-handler construction,
the two default-data initializations, the optional configured-root
application, and the final `self.root_path` writeback. -/
inductive Ev where
  | assign_run_in_memory (b : Bool) : Ev
  | construct_storage (fs : Storage_FS) : Ev
  | construct_path_handler (base : String) : Ev
  | initialize_default_types : Ev
  | ensure_root_issue_exists : Ev
  | set_current_root (path : String) : Ev
  | assign_root_path (p : String) : Ev
deriving Repr, DecidableEq

/-- The outcome of one `setup_services` run: the instance fields after the
run, the constructed storage backend / path base / path handler, the ordered
event trace, and the propagated error if `set_current_root` raised. -/
structure Setup_Outcome where
  state        : Issues_FS_State
  storage_fs   : Storage_FS
  path_base    : String
  path_handler : Path__Handler__Graph_Node
  events       : List Ev
  error        : Option String
deriving Repr, DecidableEq

/-- `setup_services`, embedded statement by statement.  `scr` stands for the
external call `root_selection_service.set_current_root(...)`, which either
succeeds or raises (returns `.error`); the Python body contains no
try/except, so a raised error aborts the remainder of the method (the
`self.root_path = root_path` writeback does not run). -/
def setup_services (env : Env) (s : Issues_FS_State)
    (scr : String → Except String Unit) : Setup_Outcome :=
  let use_memory  := resolve_storage_mode env s
  let issues_path := resolve_issues_path env s
  let root_path   := resolve_root_path env s
  let s1 := if use_memory then s else { s with run_in_memory := false }
  let storage_fs := if use_memory then Storage_FS.memory
                    else Storage_FS.local_disk issues_path
  let path_base := if use_memory then issues_path else ""
  let branch_events :=
    if use_memory then [Ev.construct_storage Storage_FS.memory]
    else [Ev.assign_run_in_memory false,
          Ev.construct_storage (Storage_FS.local_disk issues_path)]
  let path_handler : Path__Handler__Graph_Node := { base_path := path_base }
  let events1 := branch_events ++
    [Ev.construct_path_handler path_base,
     Ev.initialize_default_types,
     Ev.ensure_root_issue_exists]
  if root_path != "" then
    match scr root_path with
    | Except.error e =>
        { state        := s1
        , storage_fs   := storage_fs
        , path_base    := path_base
        , path_handler := path_handler
        , events       := events1 ++ [Ev.set_current_root root_path]
        , error        := some e }
    | Except.ok _ =>
        { state        := { s1 with root_path := root_path }
        , storage_fs   := storage_fs
        , path_base    := path_base
        , path_handler := path_handler
        , events       := events1 ++ [Ev.set_current_root root_path,
                                      Ev.assign_root_path root_path]
        , error        := none }
  else
    { state        := { s1 with root_path := root_path }
    , storage_fs   := storage_fs
    , path_base    := path_base
    , path_handler := path_handler
    , events       := events1 ++ [Ev.assign_root_path root_path]
    , error        := none }

/-- Console configuration constants from `config.py`. -/
def UI__CONSOLE__ROUTE__CONSOLE : String := "console"
def UI__CONSOLE__ROUTE__START_PAGE : String := "index"
def UI__CONSOLE__MAJOR__VERSION : String := "v0/v0.1"
def UI__CONSOLE__LATEST__VERSION : String := "v0.1.7"

/-- The redirect target built in `setup_static_routes`:
`f"/{path_name}/{major_version}/{latest_version}/{start_page}.html"`. -/
def path_latest_version (path_name major_version latest_version start_page : String) :
    String :=
  "/" ++ path_name ++ "/" ++ major_version ++ "/" ++ latest_version ++ "/" ++
    start_page ++ ".html"

/-- The URL that the `redirect_to_latest` handler registered at
`/{UI__CONSOLE__ROUTE__CONSOLE}` redirects to, with the configured constants. -/
def redirect_to_latest_url : String :=
  path_latest_version UI__CONSOLE__ROUTE__CONSOLE UI__CONSOLE__MAJOR__VERSION
    UI__CONSOLE__LATEST__VERSION UI__CONSOLE__ROUTE__START_PAGE

/-- An environment with exactly one variable set. -/
def env_single (name value : String) : Env :=
  fun n => if n = name then some value else none

/-- C1: if `ISSUES__IN_MEMORY` is set, `resolve_storage_mode` returns `False`
iff the value's lowercase form is one of `false`, `0`, `no`, `off` (so `True`
for every other set value, the empty string included); if unset it returns
the instance's `run_in_memory` default. -/
theorem resolve_storage_mode_spec (env : Env) (s : Issues_FS_State) :
    (∀ v, env ENV_VAR__ISSUES__IN_MEMORY = some v →
        (resolve_storage_mode env s = false ↔
          py_lower v ∈ ["false", "0", "no", "off"])) ∧
    (env ENV_VAR__ISSUES__IN_MEMORY = none →
        resolve_storage_mode env s = s.run_in_memory) := by
  constructor
  · intro v hv
    simp [resolve_storage_mode, get_env, hv]
    tauto
  · intro hv
    simp [resolve_storage_mode, get_env, hv]

/-- Witness for C1: with `ISSUES__IN_MEMORY=OFF` the resolver returns
`false`. -/
theorem resolve_storage_mode_spec_witness :
    resolve_storage_mode (env_single ENV_VAR__ISSUES__IN_MEMORY "OFF")
      default_state = false :=
  ((resolve_storage_mode_spec (env_single ENV_VAR__ISSUES__IN_MEMORY "OFF")
      default_state).1 "OFF" (by decide)).mpr (by decide)

/-- C6: if `ISSUES__PATH` is set and non-empty, `resolve_issues_path` returns
exactly that value; if unset or empty it returns the instance `issues_path`
default, whose class-level default is `.issues`. -/
theorem resolve_issues_path_spec (env : Env) (s : Issues_FS_State) :
    (∀ v, env ENV_VAR__ISSUES__PATH = some v → v ≠ "" →
        resolve_issues_path env s = v) ∧
    ((env ENV_VAR__ISSUES__PATH = none ∨ env ENV_VAR__ISSUES__PATH = some "") →
        resolve_issues_path env s = s.issues_path) ∧
    default_state.issues_path = ".issues" := by
  refine ⟨?_, ?_, rfl⟩
  · intro v hv hne
    simp [resolve_issues_path, get_env, hv, py_truthy_str, hne]
  · rintro (hv | hv) <;> simp [resolve_issues_path, get_env, hv, py_truthy_str]

/-- Witness for C6: with `ISSUES__PATH=/tmp/x` the resolver returns
`/tmp/x`; with it unset, it returns `.issues`. -/
theorem resolve_issues_path_spec_witness :
    resolve_issues_path (env_single ENV_VAR__ISSUES__PATH "/tmp/x")
        default_state = "/tmp/x" ∧
    resolve_issues_path (fun _ => none) default_state = ".issues" :=
  ⟨(resolve_issues_path_spec (env_single ENV_VAR__ISSUES__PATH "/tmp/x")
      default_state).1 "/tmp/x" (by decide) (by decide),
   (resolve_issues_path_spec (fun _ => none) default_state).2.1 (Or.inl rfl)⟩

/-- C7: if `ISSUES__ROOT_PATH` is set and non-empty, `resolve_root_path`
returns exactly that value; else if the instance `root_path` field is
non-empty it returns that; else it returns the empty string.  The function is
total (never raises). -/
theorem resolve_root_path_spec (env : Env) (s : Issues_FS_State) :
    (∀ v, env ENV_VAR__ISSUES__ROOT_PATH = some v → v ≠ "" →
        resolve_root_path env s = v) ∧
    ((env ENV_VAR__ISSUES__ROOT_PATH = none ∨
        env ENV_VAR__ISSUES__ROOT_PATH = some "") →
      (s.root_path ≠ "" → resolve_root_path env s = s.root_path) ∧
      (s.root_path = "" → resolve_root_path env s = "")) := by
  constructor
  · intro v hv hne
    simp [resolve_root_path, get_env, hv, py_truthy_str, hne]
  · rintro (hv | hv) <;>
      refine ⟨fun hne => ?_, fun he => ?_⟩ <;>
      simp [resolve_root_path, get_env, hv, py_truthy_str, *]

/-- Witness for C7: with `ISSUES__ROOT_PATH=a/b` the resolver returns `a/b`;
unset with empty instance field, it returns the empty string. -/
theorem resolve_root_path_spec_witness :
    resolve_root_path (env_single ENV_VAR__ISSUES__ROOT_PATH "a/b")
        default_state = "a/b" ∧
    resolve_root_path (fun _ => none) default_state = "" :=
  ⟨(resolve_root_path_spec (env_single ENV_VAR__ISSUES__ROOT_PATH "a/b")
      default_state).1 "a/b" (by decide) (by decide),
   ((resolve_root_path_spec (fun _ => none) default_state).2 (Or.inl rfl)).2 rfl⟩

/-- C8: the console redirect handler's target URL is
`/{route_name}/{major_version}/{latest_version}/{start_page}.html` for the
configured constants, which with the shipped configuration is exactly
`/console/v0/v0.1/v0.1.7/index.html`. -/
theorem redirect_to_latest_target :
    redirect_to_latest_url =
      path_latest_version UI__CONSOLE__ROUTE__CONSOLE UI__CONSOLE__MAJOR__VERSION
        UI__CONSOLE__LATEST__VERSION UI__CONSOLE__ROUTE__START_PAGE ∧
    redirect_to_latest_url = "/console/v0/v0.1/v0.1.7/index.html" :=
  ⟨rfl, rfl⟩

/-- The always-succeeding model of `set_current_root`, for witnesses. -/
def scr_ok : String → Except String Unit := fun _ => Except.ok ()

/-- C2: in `setup_services`, in-memory mode gives `path_base = issues_path`,
disk mode gives `path_base = ""`, and the path handler is constructed from
exactly that `path_base`. -/
theorem setup_services_path_base (env : Env) (s : Issues_FS_State)
    (scr : String → Except String Unit) :
    (resolve_storage_mode env s = true →
        (setup_services env s scr).path_base = resolve_issues_path env s) ∧
    (resolve_storage_mode env s = false →
        (setup_services env s scr).path_base = "") ∧
    (setup_services env s scr).path_handler.base_path =
      (setup_services env s scr).path_base := by
  unfold setup_services
  cases hm : resolve_storage_mode env s <;>
    cases hscr : scr (resolve_root_path env s) <;>
    by_cases hr : resolve_root_path env s = "" <;>
    simp [hm, hscr, hr]

/-- Witness for C2: with every variable unset (in-memory default), the path
base is the default issues path `.issues`. -/
theorem setup_services_path_base_witness :
    (setup_services (fun _ => none) default_state scr_ok).path_base = ".issues" :=
  (setup_services_path_base (fun _ => none) default_state scr_ok).1 rfl

/-- C3: on every run of `setup_services`, `initialize_default_types` completes
before `ensure_root_issue_exists`, and no `set_current_root` call happens
before them. -/
theorem setup_services_init_order (env : Env) (s : Issues_FS_State)
    (scr : String → Except String Unit) :
    ∃ l1 l2,
      (setup_services env s scr).events =
        l1 ++ Ev.initialize_default_types :: Ev.ensure_root_issue_exists :: l2 ∧
      ∀ p, Ev.set_current_root p ∉ l1 := by
  unfold setup_services
  cases hm : resolve_storage_mode env s <;> simp only [hm] <;>
    split <;> (try split) <;>
    first
      | exact ⟨[Ev.assign_run_in_memory false,
                Ev.construct_storage
                  (Storage_FS.local_disk (resolve_issues_path env s)),
                Ev.construct_path_handler ""], _, rfl, by intro p; simp⟩
      | exact ⟨[Ev.construct_storage Storage_FS.memory,
                Ev.construct_path_handler (resolve_issues_path env s)], _, rfl,
               by intro p; simp⟩

/-- C4: `set_current_root` is invoked iff the resolved root path is
non-empty, and a failure of that call propagates out of `setup_services`
uncaught. -/
theorem setup_services_root_application (env : Env) (s : Issues_FS_State)
    (scr : String → Except String Unit) :
    (Ev.set_current_root (resolve_root_path env s) ∈
        (setup_services env s scr).events ↔ resolve_root_path env s ≠ "") ∧
    (∀ e, resolve_root_path env s ≠ "" →
        scr (resolve_root_path env s) = Except.error e →
        (setup_services env s scr).error = some e) := by
  unfold setup_services
  cases hm : resolve_storage_mode env s <;> simp only [hm] <;>
    split <;> (try split) <;>
    constructor <;>
    simp_all

/-- Witness for C4: with `ISSUES__ROOT_PATH=a/b` and a failing
`set_current_root`, the error propagates out of `setup_services`. -/
theorem setup_services_root_application_witness :
    (setup_services (env_single ENV_VAR__ISSUES__ROOT_PATH "a/b") default_state
        (fun _ => Except.error "root not found")).error = some "root not found" :=
  (setup_services_root_application (env_single ENV_VAR__ISSUES__ROOT_PATH "a/b")
      default_state (fun _ => Except.error "root not found")).2
    "root not found" (by decide) rfl

/-- C5: whenever `resolve_storage_mode` returns `False`, `setup_services`
sets `run_in_memory` to `False` (still observable in the final state) and
does so before constructing the disk storage backend. -/
theorem setup_services_disk_flag (env : Env) (s : Issues_FS_State)
    (scr : String → Except String Unit)
    (h : resolve_storage_mode env s = false) :
    (setup_services env s scr).state.run_in_memory = false ∧
    (setup_services env s scr).events.take 2 =
      [Ev.assign_run_in_memory false,
       Ev.construct_storage (Storage_FS.local_disk (resolve_issues_path env s))] := by
  unfold setup_services
  cases hscr : scr (resolve_root_path env s) <;>
    by_cases hr : resolve_root_path env s = "" <;>
    simp [h, hscr, hr]

/-- Witness for C5: with `ISSUES__IN_MEMORY=false`, the final state reports
disk mode. -/
theorem setup_services_disk_flag_witness :
    (setup_services (env_single ENV_VAR__ISSUES__IN_MEMORY "false") default_state
        scr_ok).state.run_in_memory = false :=
  (setup_services_disk_flag (env_single ENV_VAR__ISSUES__IN_MEMORY "false")
      default_state scr_ok (by decide)).1

/-- The class defaults with `run_in_memory` overridden to `False`. -/
def state_disk_default : Issues_FS_State :=
  { default_state with run_in_memory := false }

/-- C9: `setup_services` never sets `run_in_memory` to `True`; in the
in-memory branch the flag is left unchanged, so an initially-`False` flag
stays `False` even when the memory backend is selected. -/
theorem setup_services_memory_flag (env : Env) (s : Issues_FS_State)
    (scr : String → Except String Unit) :
    ((setup_services env s scr).state.run_in_memory = true →
        s.run_in_memory = true) ∧
    (resolve_storage_mode env s = true →
        (setup_services env s scr).storage_fs = Storage_FS.memory ∧
        (setup_services env s scr).state.run_in_memory = s.run_in_memory) := by
  unfold setup_services
  cases hm : resolve_storage_mode env s <;> simp only [hm] <;>
    split <;> (try split) <;> constructor <;> simp_all

/-- Witness for C9: with `ISSUES__IN_MEMORY=true` but the instance flag
initially `False`, the memory backend is selected yet the flag stays
`False`. -/
theorem setup_services_memory_flag_witness :
    (setup_services (env_single ENV_VAR__ISSUES__IN_MEMORY "true")
        state_disk_default scr_ok).storage_fs = Storage_FS.memory ∧
    (setup_services (env_single ENV_VAR__ISSUES__IN_MEMORY "true")
        state_disk_default scr_ok).state.run_in_memory = false :=
  (setup_services_memory_flag (env_single ENV_VAR__ISSUES__IN_MEMORY "true")
      state_disk_default scr_ok).2 (by decide)

/-- C10: when `setup_services` completes without error, the instance
`root_path` field equals the resolved root path, even when that is the empty
string. -/
theorem setup_services_root_writeback (env : Env) (s : Issues_FS_State)
    (scr : String → Except String Unit)
    (h : (setup_services env s scr).error = none) :
    (setup_services env s scr).state.root_path = resolve_root_path env s := by
  unfold setup_services at h ⊢
  cases hm : resolve_storage_mode env s <;> simp only [hm] at h ⊢ <;>
    split at h <;> (try split at h) <;> simp_all

/-- Witness for C10: with every variable unset, the run succeeds and the
empty resolved root is written back. -/
theorem setup_services_root_writeback_witness :
    (setup_services (fun _ => none) default_state scr_ok).state.root_path = "" :=
  setup_services_root_writeback (fun _ => none) default_state scr_ok rfl

end IssuesFS
